import Mathlib

/-!
Verification of the registration-arbitration core of `fmriprep/workflows/util.py`:
the `compare_xforms` quality gate (relative transform, `decompose44` affine
decomposition, `mat2axangle` axis-angle extraction, threshold check) and the
Merge(2)/Select candidate-selection wiring of `init_bbreg_wf` and
`init_fsl_bbr_wf`.

Modelling conventions:
* Floating-point arithmetic is idealised as real arithmetic (`ℝ`).
* `np.linalg.pinv(mat1)` is modelled by passing the pseudo-inverse as an
  explicit matrix `G` constrained by the four Moore-Penrose equations
  (`IsMoorePenrose mat1 G`), which characterise `np.linalg.pinv` uniquely.
* `transforms3d.axangles.mat2axangle` obtains a unit eigenvector of `M.T`
  for eigenvalue 1 from `np.linalg.eig`; which of the (sign-ambiguous)
  eigenvectors LAPACK returns is unspecified, so the returned direction is
  modelled as an explicit argument `d` constrained by `ValidAxis M d`.
  When no such eigenvector exists the library raises and no verdict is
  produced (modelled by the relation `compare_xforms_spec`).
* `math.atan2 y x` is `Complex.arg ⟨x, y⟩`.
-/

noncomputable section

abbrev Vec3 := Fin 3 → ℝ

abbrev Mat3 := Matrix (Fin 3) (Fin 3) ℝ

abbrev Mat4 := Matrix (Fin 4) (Fin 4) ℝ

/-- Euclidean dot product of 3-vectors (`trans.dot(trans)`, `np.dot(M0, M1)`). -/
def dot3 (u v : Vec3) : ℝ := u 0 * v 0 + u 1 * v 1 + u 2 * v 2

/-- Result of `transforms3d.affines.decompose44`: translation, rotation
matrix, scales, shears. -/
@[ext] structure Decomp44 where
  trans : Vec3
  rot : Mat3
  scales : Vec3
  shears : Vec3

/-!
`transforms3d.affines.decompose44`: Gram-Schmidt extraction of scales and
shears from the columns `M0, M1, M2` of the 3x3 linear block, translation from
the last column, and a final determinant sign fix on the rotation matrix.
Each local variable of the library function becomes one definition below,
named after it (`n` suffix = after the in-place normalisation, `a` suffix =
after the in-place orthogonalisation).
-/

/-- `T = A44[:-1, -1]`. -/
def d44_T (A : Mat4) : Vec3 := ![A 0 3, A 1 3, A 2 3]

/-- First column of the linear block: `M0, M1, M2 = np.array(RZS).T`. -/
def d44_M0 (A : Mat4) : Vec3 := ![A 0 0, A 1 0, A 2 0]

/-- Second column of the linear block. -/
def d44_M1 (A : Mat4) : Vec3 := ![A 0 1, A 1 1, A 2 1]

/-- Third column of the linear block. -/
def d44_M2 (A : Mat4) : Vec3 := ![A 0 2, A 1 2, A 2 2]

/-- `sx = math.sqrt(np.sum(M0**2))`. -/
def d44_sx (A : Mat4) : ℝ := Real.sqrt (dot3 (d44_M0 A) (d44_M0 A))

/-- `M0 /= sx`. -/
def d44_M0n (A : Mat4) : Vec3 := fun i => d44_M0 A i / d44_sx A

/-- `sx_sxy = np.dot(M0, M1)`. -/
def d44_sx_sxy (A : Mat4) : ℝ := dot3 (d44_M0n A) (d44_M1 A)

/-- `M1 -= sx_sxy * M0`. -/
def d44_M1a (A : Mat4) : Vec3 := fun i => d44_M1 A i - d44_sx_sxy A * d44_M0n A i

/-- `sy = math.sqrt(np.sum(M1**2))`. -/
def d44_sy (A : Mat4) : ℝ := Real.sqrt (dot3 (d44_M1a A) (d44_M1a A))

/-- `M1 /= sy`. -/
def d44_M1n (A : Mat4) : Vec3 := fun i => d44_M1a A i / d44_sy A

/-- `sxy = sx_sxy / sx`. -/
def d44_sxy (A : Mat4) : ℝ := d44_sx_sxy A / d44_sx A

/-- `sx_sxz = np.dot(M0, M2)`. -/
def d44_sx_sxz (A : Mat4) : ℝ := dot3 (d44_M0n A) (d44_M2 A)

/-- `sy_syz = np.dot(M1, M2)`. -/
def d44_sy_syz (A : Mat4) : ℝ := dot3 (d44_M1n A) (d44_M2 A)

/-- `M2 -= (sx_sxz * M0 + sy_syz * M1)`. -/
def d44_M2a (A : Mat4) : Vec3 :=
  fun i => d44_M2 A i - (d44_sx_sxz A * d44_M0n A i + d44_sy_syz A * d44_M1n A i)

/-- `sz = math.sqrt(np.sum(M2**2))`. -/
def d44_sz (A : Mat4) : ℝ := Real.sqrt (dot3 (d44_M2a A) (d44_M2a A))

/-- `M2 /= sz`. -/
def d44_M2n (A : Mat4) : Vec3 := fun i => d44_M2a A i / d44_sz A

/-- `sxz = sx_sxz / sx`. -/
def d44_sxz (A : Mat4) : ℝ := d44_sx_sxz A / d44_sx A

/-- `syz = sy_syz / sy`. -/
def d44_syz (A : Mat4) : ℝ := d44_sy_syz A / d44_sy A

/-- `Rmat = np.array([M0, M1, M2]).T` (normalised columns side by side). -/
def d44_Rmat (A : Mat4) : Mat3 :=
  Matrix.of fun i j => if j = 0 then d44_M0n A i else if j = 1 then d44_M1n A i else d44_M2n A i

/-- `decompose44(A44)`: returns `(T, Rmat, [sx, sy, sz], [sxy, sxz, syz])`,
with `sx` and the first column of `Rmat` negated when
`np.linalg.det(Rmat) < 0`. -/
def decompose44 (A : Mat4) : Decomp44 :=
  if (d44_Rmat A).det < 0 then
    ⟨d44_T A, Matrix.of fun i j => if j = 0 then -d44_Rmat A i j else d44_Rmat A i j,
      ![-d44_sx A, d44_sy A, d44_sz A], ![d44_sxy A, d44_sxz A, d44_syz A]⟩
  else
    ⟨d44_T A, d44_Rmat A,
      ![d44_sx A, d44_sy A, d44_sz A], ![d44_sxy A, d44_sxz A, d44_syz A]⟩

/-- Python `math.atan2 y x`, as the argument of the complex number `x + y*i`. -/
def atan2 (y x : ℝ) : ℝ := Complex.arg ⟨x, y⟩

/-- Angle component of `transforms3d.axangles.mat2axangle(M)`, given the unit
eigenvector `direction` of `M.T` (for eigenvalue 1) that `np.linalg.eig`
returned: `cosa = (trace(M) - 1) / 2`, `sina` from the first sufficiently
nonzero component of `direction`, and `angle = atan2(sina, cosa)`. -/
def mat2axangleAngle (M : Mat3) (direction : Vec3) : ℝ :=
  let cosa : ℝ := (M 0 0 + M 1 1 + M 2 2 - 1) / 2
  let sina : ℝ :=
    if |direction 2| > 1e-8 then
      (M 1 0 + (cosa - 1) * direction 0 * direction 1) / direction 2
    else if |direction 1| > 1e-8 then
      (M 0 2 + (cosa - 1) * direction 0 * direction 2) / direction 1
    else
      (M 2 1 + (cosa - 1) * direction 1 * direction 2) / direction 0
  atan2 sina cosa

/-- The direction `np.linalg.eig(M.T)` can hand to `mat2axangle`: a real unit
eigenvector of `M.T` with eigenvalue 1.  If no such vector exists the library
call raises and `compare_xforms` produces no verdict. -/
def ValidAxis (M : Mat3) (d : Vec3) : Prop :=
  M.transpose.mulVec d = d ∧ dot3 d d = 1

/-- The four Penrose equations: `G` is the Moore-Penrose pseudo-inverse of `A`,
the characterisation of `np.linalg.pinv(A)`. -/
def IsMoorePenrose (A G : Mat4) : Prop :=
  A * G * A = A ∧ G * A * G = G ∧ (A * G).transpose = A * G ∧ (G * A).transpose = G * A

/-- `comp = mat2.dot(np.linalg.pinv(mat1))`, with the pseudo-inverse of `mat1`
passed explicitly as `mat1pinv`. -/
def comp44 (mat2 mat1pinv : Mat4) : Mat4 := mat2 * mat1pinv

/-- `shift_thresh = 5  # mm`. -/
def shift_thresh : ℝ := 5

/-- `rot_thresh = np.pi / 36  # 5 degrees`. -/
def rot_thresh : ℝ := Real.pi / 36

/-- `scale_thresh = 1.1  # scale factor`. -/
def scale_thresh : ℝ := 1.1

/-- `shift_magnitude = np.sqrt(trans.dot(trans))  # 2-norm`. -/
def shift_magnitude (dec : Decomp44) : ℝ := Real.sqrt (dot3 dec.trans dec.trans)

/-- `rot = mat2axangle(rotation_matrix)[1]`. -/
def rot_metric (dec : Decomp44) (d : Vec3) : ℝ := mat2axangleAngle dec.rot d

/-- `max_scale = np.max(np.abs(scales))`. -/
def max_scale (dec : Decomp44) : ℝ := max |dec.scales 0| (max |dec.scales 1| |dec.scales 2|)

/-- The returned expression of `compare_xforms`:
`shift_magnitude > shift_thresh or rot > rot_thresh or max_scale > scale_thresh`. -/
def gate (shift rot maxs : ℝ) : Prop :=
  shift > shift_thresh ∨ rot > rot_thresh ∨ maxs > scale_thresh

/-- `compare_xforms(test_mat, fallback_mat)` after loading the two matrices:
composes the test matrix with the pseudo-inverse of the fallback matrix,
decomposes, and returns both the printed diagnostic metrics
`(shift_magnitude, rot * 180 / np.pi, max_scale)` (first component, the
`print` side effect) and the boolean verdict (second component). -/
def compare_xforms (mat2 mat1pinv : Mat4) (d : Vec3) : (ℝ × ℝ × ℝ) × Prop :=
  let dec := decompose44 (comp44 mat2 mat1pinv)
  ((shift_magnitude dec, rot_metric dec d * 180 / Real.pi, max_scale dec),
    gate (shift_magnitude dec) (rot_metric dec d) (max_scale dec))

/-- The verdict alone, computed without forming the printed log tuple. -/
def quality_verdict (mat2 mat1pinv : Mat4) (d : Vec3) : Prop :=
  gate (shift_magnitude (decompose44 (comp44 mat2 mat1pinv)))
    (rot_metric (decompose44 (comp44 mat2 mat1pinv)) d)
    (max_scale (decompose44 (comp44 mat2 mat1pinv)))

/-- Big-step behaviour of one `compare_xforms` invocation on matrices
`mat2` (test) and `mat1` (fallback): some Moore-Penrose inverse of `mat1`
and some valid axis direction exist and the output is the corresponding
value.  When no valid axis exists, the library raises instead and no
output is related to the inputs. -/
def compare_xforms_spec (mat2 mat1 : Mat4) (out : (ℝ × ℝ × ℝ) × Prop) : Prop :=
  ∃ G d, IsMoorePenrose mat1 G ∧ ValidAxis (decompose44 (comp44 mat2 G)).rot d ∧
    out = compare_xforms mat2 G d

/-- A pure translation: identity linear block, translation `(a, b, c)`. -/
def translation4 (a b c : ℝ) : Mat4 :=
  !![1, 0, 0, a; 0, 1, 0, b; 0, 0, 1, c; 0, 0, 0, 1]

/-- A single-axis scaling of the x axis by 0.85, other axes unscaled. -/
def scaleX4 : Mat4 :=
  !![0.85, 0, 0, 0; 0, 1, 0, 0; 0, 0, 1, 0; 0, 0, 0, 1]

/-- Rotation about the z axis by -90 degrees (3x3 block). -/
def rotZ3 : Mat3 := !![0, 1, 0; -1, 0, 0; 0, 0, 1]

/-- Rotation about the z axis by -90 degrees, as a homogeneous matrix. -/
def rotZ4 : Mat4 :=
  !![0, 1, 0, 0; -1, 0, 0, 0; 0, 0, 1, 0; 0, 0, 0, 1]

/-- A degenerate affine: zero 3x3 linear block. -/
def zeroLin4 : Mat4 :=
  !![0, 0, 0, 0; 0, 0, 0, 0; 0, 0, 0, 0; 0, 0, 0, 1]

/-- `niu.Merge(2)`: collects `in1` and `in2` into the ordered list
`[in1, in2]`. -/
def merge2 {α : Type} (in1 in2 : α) : List α := [in1, in2]

/-- The boolean verdict of `compare_transforms` arriving at the `index` input
of `niu.Select`: nipype traits coerce the Python bool to the integer index
`1` (reject, pick fallback) or `0` (keep the refined candidate). -/
def boolToIndex (b : Bool) : ℕ := if b then 1 else 0

/-- `niu.Select`: picks `inlist[index]`. -/
def selectNode {α : Type} (inlist : List α) (index : ℕ) : Option α := inlist.get? index

/-- Outputs of the two registration nodes of `init_bbreg_wf`:
`bbregister` (refined BBR candidate) and `mri_coreg` (fallback), each a
transform (`out_lta_file`) plus a diagnostic report (`out_report`). -/
structure BbregCands (α β : Type) where
  bbregister_lta : α
  mri_coreg_lta : α
  bbregister_report : β
  mri_coreg_report : β

/-- `init_bbreg_wf` node `transforms`: `bbregister.out_lta_file -> in1`,
`mri_coreg.out_lta_file -> in2`. -/
def bbreg_transforms {α β : Type} (c : BbregCands α β) : List α :=
  merge2 c.bbregister_lta c.mri_coreg_lta

/-- `init_bbreg_wf` node `reports`: `bbregister.out_report -> in1`,
`mri_coreg.out_report -> in2`. -/
def bbreg_reports {α β : Type} (c : BbregCands α β) : List β :=
  merge2 c.bbregister_report c.mri_coreg_report

/-- `init_bbreg_wf`: the `test_mat` input of `compare_transforms` is
`bbregister.out_lta_file`. -/
def bbreg_compare_test {α β : Type} (c : BbregCands α β) : α := c.bbregister_lta

/-- `init_bbreg_wf`: the `fallback_mat` input of `compare_transforms` is
`mri_coreg.out_lta_file`. -/
def bbreg_compare_fallback {α β : Type} (c : BbregCands α β) : α := c.mri_coreg_lta

/-- `init_bbreg_wf` node `select_transform`: `transforms.out -> inlist`,
`compare_transforms.out -> index`. -/
def bbreg_select_transform {α β : Type} (c : BbregCands α β) (r : Bool) : Option α :=
  selectNode (bbreg_transforms c) (boolToIndex r)

/-- `init_bbreg_wf` node `select_report`: `reports.out -> inlist`,
`compare_transforms.out -> index`. -/
def bbreg_select_report {α β : Type} (c : BbregCands α β) (r : Bool) : Option β :=
  selectNode (bbreg_reports c) (boolToIndex r)

/-- Outputs of the two registration nodes of `init_fsl_bbr_wf`:
`flt_bbr` (refined FLIRT-BBR candidate) and `flt_bbr_init` (rigid fallback),
each a transform (`out_matrix_file`) plus a report (`out_report`). -/
structure FslCands (α β : Type) where
  flt_bbr_mat : α
  flt_bbr_init_mat : α
  flt_bbr_report : β
  flt_bbr_init_report : β

/-- `init_fsl_bbr_wf` node `transforms`: `flt_bbr.out_matrix_file -> in1`,
`flt_bbr_init.out_matrix_file -> in2`. -/
def fsl_transforms {α β : Type} (c : FslCands α β) : List α :=
  merge2 c.flt_bbr_mat c.flt_bbr_init_mat

/-- `init_fsl_bbr_wf` node `reports`: `flt_bbr.out_report -> in1`,
`flt_bbr_init.out_report -> in2`. -/
def fsl_reports {α β : Type} (c : FslCands α β) : List β :=
  merge2 c.flt_bbr_report c.flt_bbr_init_report

/-- `init_fsl_bbr_wf`: the `test_mat` input of `compare_transforms` is
`flt_bbr.out_matrix_file`. -/
def fsl_compare_test {α β : Type} (c : FslCands α β) : α := c.flt_bbr_mat

/-- `init_fsl_bbr_wf`: the `fallback_mat` input of `compare_transforms` is
`flt_bbr_init.out_matrix_file`. -/
def fsl_compare_fallback {α β : Type} (c : FslCands α β) : α := c.flt_bbr_init_mat

/-- `init_fsl_bbr_wf` node `select_transform`. -/
def fsl_select_transform {α β : Type} (c : FslCands α β) (r : Bool) : Option α :=
  selectNode (fsl_transforms c) (boolToIndex r)

/-- `init_fsl_bbr_wf` node `select_report`. -/
def fsl_select_report {α β : Type} (c : FslCands α β) (r : Bool) : Option β :=
  selectNode (fsl_reports c) (boolToIndex r)

/-- `init_bbreg_wf` node `lta_concat`: `select_transform.out -> in_lta1`,
`inputnode.t1_2_fsnative_reverse_transform -> in_lta2`; `concat` stands for
the external `fs.ConcatenateLTA` collaborator. -/
def bbreg_lta_concat {α β : Type} (concat : α → α → α) (t1rev : α)
    (c : BbregCands α β) (r : Bool) : Option α :=
  (bbreg_select_transform c r).map fun sel => concat sel t1rev

/-- `init_bbreg_wf` output `itk_bold_to_t1`:
`lta_concat -> lta2fsl_fwd (LTAConvert out_fsl) -> fsl2itk_fwd (C3dAffineTool
with reference_file = t1_brain, source_file = in_file)`. -/
def bbreg_itk_bold_to_t1 {α β γ δ : Type} (concat : α → α → α) (lta2fsl_fwd : α → α)
    (c3affine : γ → γ → α → δ) (t1_brain in_file : γ) (t1rev : α)
    (c : BbregCands α β) (r : Bool) : Option δ :=
  (bbreg_lta_concat concat t1rev c r).map fun ltaOut =>
    c3affine t1_brain in_file (lta2fsl_fwd ltaOut)

/-- `init_bbreg_wf` output `itk_t1_to_bold`:
`lta_concat -> lta2fsl_inv (LTAConvert out_fsl, invert=True) -> fsl2itk_inv
(C3dAffineTool with reference_file = in_file, source_file = t1_brain)`. -/
def bbreg_itk_t1_to_bold {α β γ δ : Type} (concat : α → α → α) (lta2fsl_inv : α → α)
    (c3affine : γ → γ → α → δ) (t1_brain in_file : γ) (t1rev : α)
    (c : BbregCands α β) (r : Bool) : Option δ :=
  (bbreg_lta_concat concat t1rev c r).map fun ltaOut =>
    c3affine in_file t1_brain (lta2fsl_inv ltaOut)

/-- `init_fsl_bbr_wf` output `itk_bold_to_t1`:
`select_transform.out -> fsl2itk_fwd.transform_file`. -/
def fsl_itk_bold_to_t1 {α β γ δ : Type} (c3affine : γ → γ → α → δ)
    (t1_brain in_file : γ) (c : FslCands α β) (r : Bool) : Option δ :=
  (fsl_select_transform c r).map fun sel => c3affine t1_brain in_file sel

/-- `init_fsl_bbr_wf` node `invt_bbr` (`fsl.ConvertXFM(invert_xfm=True)`):
`select_transform.out -> in_file`. -/
def fsl_invt_bbr {α β : Type} (invert_xfm : α → α) (c : FslCands α β) (r : Bool) : Option α :=
  (fsl_select_transform c r).map invert_xfm

/-- `init_fsl_bbr_wf` output `itk_t1_to_bold`:
`invt_bbr.out_file -> fsl2itk_inv.transform_file`. -/
def fsl_itk_t1_to_bold {α β γ δ : Type} (invert_xfm : α → α) (c3affine : γ → γ → α → δ)
    (t1_brain in_file : γ) (c : FslCands α β) (r : Bool) : Option δ :=
  (fsl_invt_bbr invert_xfm c r).map fun inv => c3affine in_file t1_brain inv

/-! ## Helper lemmas: algebra of the pseudo-inverse -/

/-- The identity is its own Moore-Penrose pseudo-inverse. -/
theorem isMoorePenrose_one : IsMoorePenrose 1 1 := by
  refine ⟨?_, ?_, ?_, ?_⟩ <;> simp

/-- A Moore-Penrose pseudo-inverse of the identity is the identity. -/
theorem isMoorePenrose_one_eq {G : Mat4} (h : IsMoorePenrose 1 G) : G = 1 := by
  simpa using h.1

/-- On an invertible matrix the Moore-Penrose pseudo-inverse coincides with
the two-sided inverse. -/
theorem isMoorePenrose_eq_inv {m1 N G : Mat4} (hMN : m1 * N = 1) (hNM : N * m1 = 1)
    (hG : IsMoorePenrose m1 G) : G = N := by
  have h2 := hG.1
  calc G = N * m1 * G * (m1 * N) := by rw [hNM, hMN, one_mul, mul_one]
    _ = N * (m1 * G * m1) * N := by simp only [mul_assoc]
    _ = N * m1 * N := by rw [h2]
    _ = N := by rw [hNM, one_mul]

/-! ## Helper lemmas: atan2 and the axis-angle extraction -/

theorem atan2_zero_one : atan2 0 1 = 0 := by
  have h : ((⟨1, 0⟩ : ℂ)) = 1 := by
    apply Complex.ext <;> simp
  rw [atan2, h, Complex.arg_one]

theorem atan2_neg_one_zero : atan2 (-1) 0 = -(Real.pi / 2) := by
  have h : ((⟨0, -1⟩ : ℂ)) = -Complex.I := by
    apply Complex.ext <;> simp
  rw [atan2, h, Complex.arg_neg_I]

/-- On the identity rotation matrix `mat2axangle` computes a zero angle for
every returned direction: every `sina` numerator vanishes and `cosa = 1`. -/
theorem mat2axangleAngle_one (d : Vec3) : mat2axangleAngle 1 d = 0 := by
  have e10 : (1 : Mat3) 1 0 = 0 := Matrix.one_apply_ne (by decide)
  have e02 : (1 : Mat3) 0 2 = 0 := Matrix.one_apply_ne (by decide)
  have e21 : (1 : Mat3) 2 1 = 0 := Matrix.one_apply_ne (by decide)
  have e00 : (1 : Mat3) 0 0 = 1 := Matrix.one_apply_eq 0
  have e11 : (1 : Mat3) 1 1 = 1 := Matrix.one_apply_eq 1
  have e22 : (1 : Mat3) 2 2 = 1 := Matrix.one_apply_eq 2
  have h : mat2axangleAngle 1 d = atan2 0 1 := by
    rw [mat2axangleAngle]
    norm_num [e10, e02, e21, e00, e11, e22]
  rw [h, atan2_zero_one]

/-- `e3 = (0,0,1)` is a valid axis direction for the identity rotation. -/
theorem validAxis_one_e3 : ValidAxis 1 ![0, 0, 1] := by
  constructor
  · simp
  · norm_num [dot3]

/-! ## Stagewise evaluation of `decompose44` on a pure translation -/

theorem tr_T (a b c : ℝ) : d44_T (translation4 a b c) = ![a, b, c] := by
  funext i
  fin_cases i <;> simp [d44_T, translation4, Matrix.vecHead, Matrix.vecTail]

theorem tr_M0 (a b c : ℝ) : d44_M0 (translation4 a b c) = ![1, 0, 0] := by
  funext i
  fin_cases i <;> simp [d44_M0, translation4, Matrix.vecHead, Matrix.vecTail]

theorem tr_M1 (a b c : ℝ) : d44_M1 (translation4 a b c) = ![0, 1, 0] := by
  funext i
  fin_cases i <;> simp [d44_M1, translation4, Matrix.vecHead, Matrix.vecTail]

theorem tr_M2 (a b c : ℝ) : d44_M2 (translation4 a b c) = ![0, 0, 1] := by
  funext i
  fin_cases i <;> simp [d44_M2, translation4, Matrix.vecHead, Matrix.vecTail]

theorem tr_sx (a b c : ℝ) : d44_sx (translation4 a b c) = 1 := by
  simp [d44_sx, tr_M0, dot3]

theorem tr_M0n (a b c : ℝ) : d44_M0n (translation4 a b c) = ![1, 0, 0] := by
  funext i
  fin_cases i <;> simp [d44_M0n, tr_M0, tr_sx]

theorem tr_sx_sxy (a b c : ℝ) : d44_sx_sxy (translation4 a b c) = 0 := by
  simp [d44_sx_sxy, tr_M0n, tr_M1, dot3]

theorem tr_M1a (a b c : ℝ) : d44_M1a (translation4 a b c) = ![0, 1, 0] := by
  funext i
  fin_cases i <;> simp [d44_M1a, tr_M1, tr_sx_sxy]

theorem tr_sy (a b c : ℝ) : d44_sy (translation4 a b c) = 1 := by
  simp [d44_sy, tr_M1a, dot3]

theorem tr_M1n (a b c : ℝ) : d44_M1n (translation4 a b c) = ![0, 1, 0] := by
  funext i
  fin_cases i <;> simp [d44_M1n, tr_M1a, tr_sy]

theorem tr_sx_sxz (a b c : ℝ) : d44_sx_sxz (translation4 a b c) = 0 := by
  simp [d44_sx_sxz, tr_M0n, tr_M2, dot3]

theorem tr_sy_syz (a b c : ℝ) : d44_sy_syz (translation4 a b c) = 0 := by
  simp [d44_sy_syz, tr_M1n, tr_M2, dot3]

theorem tr_M2a (a b c : ℝ) : d44_M2a (translation4 a b c) = ![0, 0, 1] := by
  funext i
  fin_cases i <;> simp [d44_M2a, tr_M2, tr_sx_sxz, tr_sy_syz]

theorem tr_sz (a b c : ℝ) : d44_sz (translation4 a b c) = 1 := by
  simp [d44_sz, tr_M2a, dot3]

theorem tr_M2n (a b c : ℝ) : d44_M2n (translation4 a b c) = ![0, 0, 1] := by
  funext i
  fin_cases i <;> simp [d44_M2n, tr_M2a, tr_sz]

theorem tr_Rmat (a b c : ℝ) : d44_Rmat (translation4 a b c) = 1 := by
  ext i j
  fin_cases i <;> fin_cases j <;>
    simp [d44_Rmat, tr_M0n, tr_M1n, tr_M2n, Matrix.one_apply]

/-- `decompose44` of a pure translation: translation recovered exactly,
identity rotation, unit scales, zero shears. -/
theorem decompose44_translation (a b c : ℝ) :
    decompose44 (translation4 a b c) = ⟨![a, b, c], 1, ![1, 1, 1], ![0, 0, 0]⟩ := by
  rw [decompose44, tr_Rmat]
  rw [if_neg (by norm_num : ¬ ((1 : Mat3).det < 0))]
  rw [tr_T, tr_sx, tr_sy, tr_sz]
  simp [d44_sxy, d44_sxz, d44_syz, tr_sx_sxy, tr_sx_sxz, tr_sy_syz]

/-- The identity homogeneous matrix is the zero translation. -/
theorem one_eq_translation4 : (1 : Mat4) = translation4 0 0 0 := by
  ext i j
  fin_cases i <;> fin_cases j <;>
    simp [translation4, Matrix.one_apply, Matrix.vecHead, Matrix.vecTail]

/-- `decompose44` of the identity. -/
theorem decompose44_one :
    decompose44 (1 : Mat4) = ⟨![0, 0, 0], 1, ![1, 1, 1], ![0, 0, 0]⟩ := by
  rw [one_eq_translation4, decompose44_translation]

/-! ## Stagewise evaluation of `decompose44` on the single-axis 0.85 scaling -/

theorem sc_T : d44_T scaleX4 = ![0, 0, 0] := by
  funext i
  fin_cases i <;> simp [d44_T, scaleX4, Matrix.vecHead, Matrix.vecTail]

theorem sc_M0 : d44_M0 scaleX4 = ![0.85, 0, 0] := by
  funext i
  fin_cases i <;> simp [d44_M0, scaleX4, Matrix.vecHead, Matrix.vecTail]

theorem sc_M1 : d44_M1 scaleX4 = ![0, 1, 0] := by
  funext i
  fin_cases i <;> simp [d44_M1, scaleX4, Matrix.vecHead, Matrix.vecTail]

theorem sc_M2 : d44_M2 scaleX4 = ![0, 0, 1] := by
  funext i
  fin_cases i <;> simp [d44_M2, scaleX4, Matrix.vecHead, Matrix.vecTail]

theorem sc_sx : d44_sx scaleX4 = 0.85 := by
  have h : dot3 (d44_M0 scaleX4) (d44_M0 scaleX4) = 0.85 * 0.85 := by
    rw [sc_M0]; norm_num [dot3]
  rw [d44_sx, h, Real.sqrt_mul_self (by norm_num : (0 : ℝ) ≤ 0.85)]

theorem sc_M0n : d44_M0n scaleX4 = ![1, 0, 0] := by
  funext i
  fin_cases i <;> norm_num [d44_M0n, sc_M0, sc_sx]

theorem sc_sx_sxy : d44_sx_sxy scaleX4 = 0 := by
  simp [d44_sx_sxy, sc_M0n, sc_M1, dot3]

theorem sc_M1a : d44_M1a scaleX4 = ![0, 1, 0] := by
  funext i
  fin_cases i <;> simp [d44_M1a, sc_M1, sc_sx_sxy]

theorem sc_sy : d44_sy scaleX4 = 1 := by
  simp [d44_sy, sc_M1a, dot3]

theorem sc_M1n : d44_M1n scaleX4 = ![0, 1, 0] := by
  funext i
  fin_cases i <;> simp [d44_M1n, sc_M1a, sc_sy]

theorem sc_sx_sxz : d44_sx_sxz scaleX4 = 0 := by
  simp [d44_sx_sxz, sc_M0n, sc_M2, dot3]

theorem sc_sy_syz : d44_sy_syz scaleX4 = 0 := by
  simp [d44_sy_syz, sc_M1n, sc_M2, dot3]

theorem sc_M2a : d44_M2a scaleX4 = ![0, 0, 1] := by
  funext i
  fin_cases i <;> simp [d44_M2a, sc_M2, sc_sx_sxz, sc_sy_syz]

theorem sc_sz : d44_sz scaleX4 = 1 := by
  simp [d44_sz, sc_M2a, dot3]

theorem sc_M2n : d44_M2n scaleX4 = ![0, 0, 1] := by
  funext i
  fin_cases i <;> simp [d44_M2n, sc_M2a, sc_sz]

theorem sc_Rmat : d44_Rmat scaleX4 = 1 := by
  ext i j
  fin_cases i <;> fin_cases j <;>
    simp [d44_Rmat, sc_M0n, sc_M1n, sc_M2n, Matrix.one_apply]

/-- `decompose44` of the single-axis scaling: the 0.85 factor lands in the
scales vector, rotation identity, shears zero. -/
theorem decompose44_scaleX :
    decompose44 scaleX4 = ⟨![0, 0, 0], 1, ![0.85, 1, 1], ![0, 0, 0]⟩ := by
  rw [decompose44, sc_Rmat]
  rw [if_neg (by norm_num : ¬ ((1 : Mat3).det < 0))]
  rw [sc_T, sc_sx, sc_sy, sc_sz]
  simp [d44_sxy, d44_sxz, d44_syz, sc_sx_sxy, sc_sx_sxz, sc_sy_syz]

/-! ## Stagewise evaluation of `decompose44` on the -90 degree z rotation -/

theorem rz_T : d44_T rotZ4 = ![0, 0, 0] := by
  funext i
  fin_cases i <;> simp [d44_T, rotZ4, Matrix.vecHead, Matrix.vecTail]

theorem rz_M0 : d44_M0 rotZ4 = ![0, -1, 0] := by
  funext i
  fin_cases i <;> simp [d44_M0, rotZ4, Matrix.vecHead, Matrix.vecTail]

theorem rz_M1 : d44_M1 rotZ4 = ![1, 0, 0] := by
  funext i
  fin_cases i <;> simp [d44_M1, rotZ4, Matrix.vecHead, Matrix.vecTail]

theorem rz_M2 : d44_M2 rotZ4 = ![0, 0, 1] := by
  funext i
  fin_cases i <;> simp [d44_M2, rotZ4, Matrix.vecHead, Matrix.vecTail]

theorem rz_sx : d44_sx rotZ4 = 1 := by
  have h : dot3 (d44_M0 rotZ4) (d44_M0 rotZ4) = 1 := by
    rw [rz_M0]; norm_num [dot3]
  rw [d44_sx, h, Real.sqrt_one]

theorem rz_M0n : d44_M0n rotZ4 = ![0, -1, 0] := by
  funext i
  fin_cases i <;> simp [d44_M0n, rz_M0, rz_sx]

theorem rz_sx_sxy : d44_sx_sxy rotZ4 = 0 := by
  simp [d44_sx_sxy, rz_M0n, rz_M1, dot3]

theorem rz_M1a : d44_M1a rotZ4 = ![1, 0, 0] := by
  funext i
  fin_cases i <;> simp [d44_M1a, rz_M1, rz_sx_sxy]

theorem rz_sy : d44_sy rotZ4 = 1 := by
  simp [d44_sy, rz_M1a, dot3]

theorem rz_M1n : d44_M1n rotZ4 = ![1, 0, 0] := by
  funext i
  fin_cases i <;> simp [d44_M1n, rz_M1a, rz_sy]

theorem rz_sx_sxz : d44_sx_sxz rotZ4 = 0 := by
  simp [d44_sx_sxz, rz_M0n, rz_M2, dot3]

theorem rz_sy_syz : d44_sy_syz rotZ4 = 0 := by
  simp [d44_sy_syz, rz_M1n, rz_M2, dot3]

theorem rz_M2a : d44_M2a rotZ4 = ![0, 0, 1] := by
  funext i
  fin_cases i <;> simp [d44_M2a, rz_M2, rz_sx_sxz, rz_sy_syz]

theorem rz_sz : d44_sz rotZ4 = 1 := by
  simp [d44_sz, rz_M2a, dot3]

theorem rz_M2n : d44_M2n rotZ4 = ![0, 0, 1] := by
  funext i
  fin_cases i <;> simp [d44_M2n, rz_M2a, rz_sz]

theorem rz_Rmat : d44_Rmat rotZ4 = rotZ3 := by
  ext i j
  fin_cases i <;> fin_cases j <;>
    simp [d44_Rmat, rz_M0n, rz_M1n, rz_M2n, rotZ3, Matrix.vecHead, Matrix.vecTail]

theorem rotZ3_det : rotZ3.det = 1 := by
  simp [rotZ3, Matrix.det_fin_three]

/-- `decompose44` of the -90 degree z rotation: the rotation matrix is
returned unchanged, unit scales, zero shears. -/
theorem decompose44_rotZ4 :
    decompose44 rotZ4 = ⟨![0, 0, 0], rotZ3, ![1, 1, 1], ![0, 0, 0]⟩ := by
  rw [decompose44, rz_Rmat]
  rw [if_neg (by rw [rotZ3_det]; norm_num)]
  rw [rz_T, rz_sx, rz_sy, rz_sz]
  simp [d44_sxy, d44_sxz, d44_syz, rz_sx_sxy, rz_sx_sxz, rz_sy_syz]

/-! ## Stagewise evaluation of `decompose44` on the zero linear block -/

theorem zl_M0 : d44_M0 zeroLin4 = ![0, 0, 0] := by
  funext i
  fin_cases i <;> simp [d44_M0, zeroLin4, Matrix.vecHead, Matrix.vecTail]

theorem zl_M1 : d44_M1 zeroLin4 = ![0, 0, 0] := by
  funext i
  fin_cases i <;> simp [d44_M1, zeroLin4, Matrix.vecHead, Matrix.vecTail]

theorem zl_M2 : d44_M2 zeroLin4 = ![0, 0, 0] := by
  funext i
  fin_cases i <;> simp [d44_M2, zeroLin4, Matrix.vecHead, Matrix.vecTail]

theorem zl_sx : d44_sx zeroLin4 = 0 := by
  simp [d44_sx, zl_M0, dot3]

theorem zl_M0n : d44_M0n zeroLin4 = ![0, 0, 0] := by
  funext i
  fin_cases i <;> simp [d44_M0n, zl_M0]

theorem zl_sx_sxy : d44_sx_sxy zeroLin4 = 0 := by
  simp [d44_sx_sxy, zl_M0n, zl_M1, dot3]

theorem zl_M1a : d44_M1a zeroLin4 = ![0, 0, 0] := by
  funext i
  fin_cases i <;> simp [d44_M1a, zl_M1, zl_sx_sxy]

theorem zl_sy : d44_sy zeroLin4 = 0 := by
  simp [d44_sy, zl_M1a, dot3]

theorem zl_M1n : d44_M1n zeroLin4 = ![0, 0, 0] := by
  funext i
  fin_cases i <;> simp [d44_M1n, zl_M1a]

theorem zl_sx_sxz : d44_sx_sxz zeroLin4 = 0 := by
  simp [d44_sx_sxz, zl_M0n, zl_M2, dot3]

theorem zl_sy_syz : d44_sy_syz zeroLin4 = 0 := by
  simp [d44_sy_syz, zl_M1n, zl_M2, dot3]

theorem zl_M2a : d44_M2a zeroLin4 = ![0, 0, 0] := by
  funext i
  fin_cases i <;> simp [d44_M2a, zl_M2, zl_sx_sxz, zl_sy_syz]

theorem zl_sz : d44_sz zeroLin4 = 0 := by
  simp [d44_sz, zl_M2a, dot3]

theorem zl_M2n : d44_M2n zeroLin4 = ![0, 0, 0] := by
  funext i
  fin_cases i <;> simp [d44_M2n, zl_M2a]

theorem zl_Rmat : d44_Rmat zeroLin4 = 0 := by
  ext i j
  fin_cases i <;> fin_cases j <;>
    simp [d44_Rmat, zl_M0n, zl_M1n, zl_M2n]

/-- With a zero linear block the Gram-Schmidt degenerates and the candidate
rotation matrix is the zero matrix (divisions by the zero norms). -/
theorem decompose44_zeroLin_rot : (decompose44 zeroLin4).rot = 0 := by
  rw [decompose44, zl_Rmat]
  rw [if_neg (by simp)]

/-! ## Further helper lemmas for the axis-angle extraction and the gate -/

/-- On the -90 degree z rotation, `mat2axangle` with the returned direction
`(0, 0, 1)` computes `cosa = 0`, `sina = -1`, hence the angle `-pi/2`. -/
theorem mat2axangleAngle_rotZ3 : mat2axangleAngle rotZ3 ![0, 0, 1] = -(Real.pi / 2) := by
  have h : mat2axangleAngle rotZ3 ![0, 0, 1] = atan2 (-1) 0 := by
    rw [mat2axangleAngle]
    norm_num [rotZ3]
  rw [h, atan2_neg_one_zero]

/-- `(0, 0, 1)` is a unit eigenvector of `rotZ3.T` for eigenvalue 1, hence a
direction `np.linalg.eig` may return for it. -/
theorem validAxis_rotZ3_e3 : ValidAxis rotZ3 ![0, 0, 1] := by
  constructor
  · funext i
    fin_cases i <;>
      simp [Matrix.mulVec, Matrix.dotProduct, rotZ3, Fin.sum_univ_three,
        Matrix.transpose_apply, Matrix.vecHead, Matrix.vecTail]
  · norm_num [dot3]

/-- The gate does not fire on metrics `(0, 0, 1)`. -/
theorem gate_zero_zero_one : ¬ gate 0 0 1 := by
  rw [gate, shift_thresh, rot_thresh, scale_thresh]
  push_neg
  refine ⟨by norm_num, by positivity, by norm_num⟩

/-- The verdict component of `compare_xforms` is the gate applied to the
metrics of the decomposition of `comp`. -/
theorem compare_xforms_snd (m2 G : Mat4) (d : Vec3) :
    (compare_xforms m2 G d).2
      = gate (shift_magnitude (decompose44 (comp44 m2 G)))
          (rot_metric (decompose44 (comp44 m2 G)) d)
          (max_scale (decompose44 (comp44 m2 G))) := rfl

/-! ## Claim theorems -/

/-- Claim C1: for every verdict value, both `select_transform` and
`select_report` are driven by the single shared index `1 if reject_refined
else 0` into the parallel candidate lists (index 0 = refined, index 1 =
fallback), in both `init_bbreg_wf` and `init_fsl_bbr_wf`, so the selected
transform and report always originate from the same candidate. -/
theorem selector_shared_index {α β : Type} (cb : BbregCands α β) (cf : FslCands α β) (r : Bool) :
    boolToIndex r = (if r then 1 else 0)
    ∧ bbreg_select_transform cb r = (bbreg_transforms cb).get? (boolToIndex r)
    ∧ bbreg_select_report cb r = (bbreg_reports cb).get? (boolToIndex r)
    ∧ (bbreg_select_transform cb r, bbreg_select_report cb r)
        = (if r then (some cb.mri_coreg_lta, some cb.mri_coreg_report)
           else (some cb.bbregister_lta, some cb.bbregister_report))
    ∧ fsl_select_transform cf r = (fsl_transforms cf).get? (boolToIndex r)
    ∧ fsl_select_report cf r = (fsl_reports cf).get? (boolToIndex r)
    ∧ (fsl_select_transform cf r, fsl_select_report cf r)
        = (if r then (some cf.flt_bbr_init_mat, some cf.flt_bbr_init_report)
           else (some cf.flt_bbr_mat, some cf.flt_bbr_report)) := by
  cases r <;>
    simp [boolToIndex, bbreg_select_transform, bbreg_select_report, bbreg_transforms,
      bbreg_reports, fsl_select_transform, fsl_select_report, fsl_transforms, fsl_reports,
      selectNode, merge2]

/-- Claim C2: with the fallback equal to the identity and the test matrix a
pure translation `(a, b, c)`, the verdict fires exactly when the squared
magnitude exceeds 25 (strict comparison `>`): magnitude exactly 5 passes,
magnitude 5.0001 is rejected. -/
theorem shift_threshold_strict (a b c : ℝ) (G : Mat4) (d : Vec3)
    (hG : IsMoorePenrose 1 G)
    (_hd : ValidAxis (decompose44 (comp44 (translation4 a b c) G)).rot d) :
    ((compare_xforms (translation4 a b c) G d).2 ↔ 25 < a * a + b * b + c * c)
    ∧ (a * a + b * b + c * c = 25 → ¬ (compare_xforms (translation4 a b c) G d).2)
    ∧ (a * a + b * b + c * c = 5.0001 ^ 2 → (compare_xforms (translation4 a b c) G d).2) := by
  obtain rfl : G = 1 := isMoorePenrose_one_eq hG
  have hc : comp44 (translation4 a b c) 1 = translation4 a b c := by simp [comp44]
  have hdec : decompose44 (comp44 (translation4 a b c) 1)
      = ⟨![a, b, c], 1, ![1, 1, 1], ![0, 0, 0]⟩ := by
    rw [hc, decompose44_translation]
  have hshift : shift_magnitude (decompose44 (comp44 (translation4 a b c) 1))
      = Real.sqrt (a * a + b * b + c * c) := by
    rw [hdec, shift_magnitude]
    norm_num [dot3]
  have hrot : rot_metric (decompose44 (comp44 (translation4 a b c) 1)) d = 0 := by
    rw [hdec]
    exact mat2axangleAngle_one d
  have hmax : max_scale (decompose44 (comp44 (translation4 a b c) 1)) = 1 := by
    rw [hdec, max_scale]
    norm_num
  have hv : (compare_xforms (translation4 a b c) 1 d).2
      ↔ 5 < Real.sqrt (a * a + b * b + c * c) := by
    rw [compare_xforms_snd, hshift, hrot, hmax, gate, shift_thresh, rot_thresh, scale_thresh]
    have h2 : ¬ ((0 : ℝ) > Real.pi / 36) := by
      push_neg
      positivity
    have h3 : ¬ ((1 : ℝ) > 1.1) := by norm_num
    tauto
  have hnn : (0 : ℝ) ≤ a * a + b * b + c * c := by
    nlinarith [mul_self_nonneg a, mul_self_nonneg b, mul_self_nonneg c]
  refine ⟨?_, ?_, ?_⟩
  · rw [hv, Real.lt_sqrt (by norm_num : (0 : ℝ) ≤ 5)]
    norm_num
  · intro h25
    rw [hv, h25, show (25 : ℝ) = 5 ^ 2 by norm_num,
      Real.sqrt_sq (by norm_num : (0 : ℝ) ≤ 5)]
    norm_num
  · intro h
    rw [hv, h, Real.sqrt_sq (by norm_num : (0 : ℝ) ≤ 5.0001)]
    norm_num

theorem shift_threshold_strict_witness :
    ¬ (compare_xforms (translation4 5 0 0) 1 ![0, 0, 1]).2 :=
  (shift_threshold_strict 5 0 0 1 ![0, 0, 1] isMoorePenrose_one
    (by rw [show comp44 (translation4 5 0 0) 1 = translation4 5 0 0 by simp [comp44],
          decompose44_translation]
        exact validAxis_one_e3)).2.1 (by norm_num)

/-- Claim C3: comparing an invertible `M` against itself gives zero shift,
zero rotation angle, unit maximal scale, and a negative verdict. -/
theorem identity_property (M N G : Mat4) (d : Vec3) (hMN : M * N = 1) (hNM : N * M = 1)
    (hG : IsMoorePenrose M G)
    (_hd : ValidAxis (decompose44 (comp44 M G)).rot d) :
    shift_magnitude (decompose44 (comp44 M G)) = 0
    ∧ rot_metric (decompose44 (comp44 M G)) d = 0
    ∧ max_scale (decompose44 (comp44 M G)) = 1
    ∧ ¬ (compare_xforms M G d).2 := by
  have hGN : G = N := isMoorePenrose_eq_inv hMN hNM hG
  have hcomp : comp44 M G = 1 := by
    rw [comp44, hGN]
    exact hMN
  have hdec : decompose44 (comp44 M G) = ⟨![0, 0, 0], 1, ![1, 1, 1], ![0, 0, 0]⟩ := by
    rw [hcomp, decompose44_one]
  have h1 : shift_magnitude (decompose44 (comp44 M G)) = 0 := by
    rw [hdec, shift_magnitude]
    norm_num [dot3]
  have h2 : rot_metric (decompose44 (comp44 M G)) d = 0 := by
    rw [hdec]
    exact mat2axangleAngle_one d
  have h3 : max_scale (decompose44 (comp44 M G)) = 1 := by
    rw [hdec, max_scale]
    norm_num
  refine ⟨h1, h2, h3, ?_⟩
  rw [compare_xforms_snd, h1, h2, h3]
  exact gate_zero_zero_one

theorem identity_property_witness :
    ¬ (compare_xforms 1 1 ![0, 0, 1]).2 :=
  (identity_property 1 1 1 ![0, 0, 1] (mul_one 1) (mul_one 1) isMoorePenrose_one
    (by rw [show comp44 (1 : Mat4) 1 = 1 by simp [comp44], decompose44_one]
        exact validAxis_one_e3)).2.2.2

/-- Claim C4: the relative transform is `comp = mat2 * pinv(mat1)` (test on
the left): composed with an invertible fallback it recovers the test matrix,
it coincides with the strict inverse there, the pseudo-inverse is still
defined on the singular zero matrix where no strict inverse exists, and the
verdict is computed from the decomposition of `comp`. -/
theorem relative_transform_pinv (m1 m2 N G : Mat4) (d : Vec3)
    (hMN : m1 * N = 1) (hNM : N * m1 = 1) (hG : IsMoorePenrose m1 G) :
    comp44 m2 G = m2 * N
    ∧ comp44 m2 G * m1 = m2
    ∧ IsMoorePenrose 0 0
    ∧ (¬ ∃ Z : Mat4, (0 : Mat4) * Z = 1)
    ∧ compare_xforms m2 G d
        = ((shift_magnitude (decompose44 (comp44 m2 G)),
            rot_metric (decompose44 (comp44 m2 G)) d * 180 / Real.pi,
            max_scale (decompose44 (comp44 m2 G))),
          gate (shift_magnitude (decompose44 (comp44 m2 G)))
            (rot_metric (decompose44 (comp44 m2 G)) d)
            (max_scale (decompose44 (comp44 m2 G)))) := by
  have hGN : G = N := isMoorePenrose_eq_inv hMN hNM hG
  refine ⟨by rw [comp44, hGN], ?_, ⟨by simp, by simp, by simp, by simp⟩, ?_, rfl⟩
  · rw [comp44, hGN, mul_assoc, hNM, mul_one]
  · rintro ⟨Z, hZ⟩
    rw [zero_mul] at hZ
    have h00 := congrFun (congrFun hZ 0) 0
    simp [Matrix.one_apply] at h00

theorem relative_transform_pinv_witness :
    comp44 1 1 = (1 : Mat4) * 1 :=
  (relative_transform_pinv 1 1 1 1 ![0, 0, 1] (mul_one 1) (mul_one 1) isMoorePenrose_one).1

/-- Claim C5: for a test matrix with a zero linear block (fallback identity)
the degenerate decomposition admits no valid axis direction, so the
axis-angle extraction fails and no output of `compare_xforms` is related to
these inputs: no verdict is produced. -/
theorem singular_input_no_verdict :
    {out : (ℝ × ℝ × ℝ) × Prop | compare_xforms_spec zeroLin4 1 out} = ∅
    ∧ (decompose44 (comp44 zeroLin4 1)).rot = 0 := by
  have hc : comp44 zeroLin4 1 = zeroLin4 := by simp [comp44]
  have hrot : (decompose44 (comp44 zeroLin4 1)).rot = 0 := by
    rw [hc, decompose44_zeroLin_rot]
  refine ⟨?_, hrot⟩
  ext out
  simp only [Set.mem_setOf_eq, Set.mem_empty_iff_false, iff_false]
  rintro ⟨G, d, hG, hd, -⟩
  obtain rfl : G = 1 := isMoorePenrose_one_eq hG
  rw [hrot] at hd
  obtain ⟨hd1, hd2⟩ := hd
  rw [Matrix.transpose_zero, Matrix.zero_mulVec] at hd1
  rw [← hd1] at hd2
  norm_num [dot3] at hd2

/-- Claim C6, counterexample: on the -90 degree z rotation (a rotation the
code can receive from `decompose44`), the valid axis direction `(0, 0, 1)`
makes `mat2axangle` return the angle `-pi/2`, which is negative — the
rotation angle consumed by the gate is not confined to `[0, pi]`. -/
theorem rotation_angle_negative_cex :
    ValidAxis (decompose44 (comp44 rotZ4 1)).rot ![0, 0, 1]
    ∧ rot_metric (decompose44 (comp44 rotZ4 1)) ![0, 0, 1] = -(Real.pi / 2)
    ∧ rot_metric (decompose44 (comp44 rotZ4 1)) ![0, 0, 1] < 0 := by
  have hc : comp44 rotZ4 1 = rotZ4 := by simp [comp44]
  have hr : (decompose44 (comp44 rotZ4 1)).rot = rotZ3 := by
    rw [hc, decompose44_rotZ4]
  have hval : rot_metric (decompose44 (comp44 rotZ4 1)) ![0, 0, 1] = -(Real.pi / 2) := by
    rw [rot_metric, hr, mat2axangleAngle_rotZ3]
  refine ⟨?_, hval, ?_⟩
  · rw [hr]
    exact validAxis_rotZ3_e3
  · rw [hval]
    have := Real.pi_pos
    linarith

/-- Claim C6, amended: the rotation angle computed by `mat2axangle` is an
`atan2` value and therefore lies in `(-pi, pi]`; it is not guaranteed to be
nonnegative (the sign depends on the orientation of the eigenvector the
eigendecomposition returns). -/
theorem rotation_angle_range_amended (M : Mat3) (d : Vec3) :
    -Real.pi < mat2axangleAngle M d ∧ mat2axangleAngle M d ≤ Real.pi :=
  ⟨Complex.neg_pi_lt_arg _, Complex.arg_le_pi _⟩

/-- Claim C7: with fallback identity and the test matrix scaling a single
axis by 0.85 (other axes at 1), the decomposed scales are `(0.85, 1, 1)`,
`max_scale = max of their absolute values = 1 ≤ 1`, and the gate does not
fire under the 1.1 threshold. -/
theorem max_scale_abs_single_axis (G : Mat4) (d : Vec3) (hG : IsMoorePenrose 1 G)
    (_hd : ValidAxis (decompose44 (comp44 scaleX4 G)).rot d) :
    (decompose44 (comp44 scaleX4 G)).scales = ![0.85, 1, 1]
    ∧ max_scale (decompose44 (comp44 scaleX4 G)) = 1
    ∧ max_scale (decompose44 (comp44 scaleX4 G)) ≤ 1
    ∧ ¬ (compare_xforms scaleX4 G d).2 := by
  obtain rfl : G = 1 := isMoorePenrose_one_eq hG
  have hc : comp44 scaleX4 1 = scaleX4 := by simp [comp44]
  have hdec : decompose44 (comp44 scaleX4 1) = ⟨![0, 0, 0], 1, ![0.85, 1, 1], ![0, 0, 0]⟩ := by
    rw [hc, decompose44_scaleX]
  have h1 : shift_magnitude (decompose44 (comp44 scaleX4 1)) = 0 := by
    rw [hdec, shift_magnitude]
    norm_num [dot3]
  have h2 : rot_metric (decompose44 (comp44 scaleX4 1)) d = 0 := by
    rw [hdec]
    exact mat2axangleAngle_one d
  have h3 : max_scale (decompose44 (comp44 scaleX4 1)) = 1 := by
    rw [hdec, max_scale]
    norm_num [max_eq_right, abs_le]
  refine ⟨by rw [hdec], h3, by rw [h3], ?_⟩
  rw [compare_xforms_snd, h1, h2, h3]
  exact gate_zero_zero_one

theorem max_scale_abs_single_axis_witness :
    ¬ (compare_xforms scaleX4 1 ![0, 0, 1]).2 :=
  (max_scale_abs_single_axis 1 ![0, 0, 1] isMoorePenrose_one
    (by rw [show comp44 scaleX4 1 = scaleX4 by simp [comp44], decompose44_scaleX]
        exact validAxis_one_e3)).2.2.2

/-- Claim C8: the decompose-gate-select pass is a pure function of its
inputs — identical inputs give identical printed metrics, verdicts and
selections — and the verdict coincides with `quality_verdict`, which is
computed without forming the log tuple, so the diagnostic logging is
observational only. -/
theorem arbitration_deterministic {α β : Type} (m2 m2b G Gb : Mat4) (d db : Vec3)
    (cb cbb : BbregCands α β) (cf cfb : FslCands α β) (r rb : Bool)
    (h2 : m2 = m2b) (hG : G = Gb) (hd : d = db) (hb : cb = cbb) (hf : cf = cfb)
    (hr : r = rb) :
    compare_xforms m2 G d = compare_xforms m2b Gb db
    ∧ ((compare_xforms m2 G d).2 ↔ quality_verdict m2 G d)
    ∧ bbreg_select_transform cb r = bbreg_select_transform cbb rb
    ∧ bbreg_select_report cb r = bbreg_select_report cbb rb
    ∧ fsl_select_transform cf r = fsl_select_transform cfb rb
    ∧ fsl_select_report cf r = fsl_select_report cfb rb := by
  subst h2 hG hd hb hf hr
  exact ⟨rfl, Iff.rfl, rfl, rfl, rfl, rfl⟩

theorem arbitration_deterministic_witness :
    compare_xforms 1 1 ![0, 0, 1] = compare_xforms 1 1 ![0, 0, 1] :=
  (@arbitration_deterministic Unit Unit 1 1 1 1 ![0, 0, 1] ![0, 0, 1]
    ⟨(), (), (), ()⟩ ⟨(), (), (), ()⟩ ⟨(), (), (), ()⟩ ⟨(), (), (), ()⟩ false false
    rfl rfl rfl rfl rfl rfl).1

/-- Claim C9: in both workflows the refined registration occupies candidate
index 0 (`in1` of the merge nodes) and the fallback index 1 (`in2`), for the
transform and report lists alike, and the matrices fed to the comparison are
exactly the candidates placed in the transform list, in that order. -/
theorem candidate_order_invariant {α β : Type} (cb : BbregCands α β) (cf : FslCands α β) :
    (bbreg_transforms cb).get? 0 = some (bbreg_compare_test cb)
    ∧ (bbreg_transforms cb).get? 1 = some (bbreg_compare_fallback cb)
    ∧ (bbreg_reports cb).get? 0 = some cb.bbregister_report
    ∧ (bbreg_reports cb).get? 1 = some cb.mri_coreg_report
    ∧ bbreg_compare_test cb = cb.bbregister_lta
    ∧ bbreg_compare_fallback cb = cb.mri_coreg_lta
    ∧ (fsl_transforms cf).get? 0 = some (fsl_compare_test cf)
    ∧ (fsl_transforms cf).get? 1 = some (fsl_compare_fallback cf)
    ∧ (fsl_reports cf).get? 0 = some cf.flt_bbr_report
    ∧ (fsl_reports cf).get? 1 = some cf.flt_bbr_init_report
    ∧ fsl_compare_test cf = cf.flt_bbr_mat
    ∧ fsl_compare_fallback cf = cf.flt_bbr_init_mat :=
  ⟨rfl, rfl, rfl, rfl, rfl, rfl, rfl, rfl, rfl, rfl, rfl, rfl⟩

/-- Claim C10: in both workflows the forward (`itk_bold_to_t1`) and inverse
(`itk_t1_to_bold`) outputs are functions of the single selected transform
(plus static inputs): invocations agreeing on the selected transform agree
on both outputs, and the inverse output is obtained by inverse-converting
(`lta2fsl_inv` resp. `invt_bbr`) a value derived from the selected
transform, never from the unselected candidate. -/
theorem outputs_from_selected {α β γ δ : Type} (concat : α → α → α)
    (lta2fsl_fwd lta2fsl_inv invert_xfm : α → α) (c3affine : γ → γ → α → δ)
    (t1_brain in_file : γ) (t1rev : α)
    (cb cbb : BbregCands α β) (r rb : Bool) (cf cfb : FslCands α β) (s sb : Bool)
    (hb : bbreg_select_transform cb r = bbreg_select_transform cbb rb)
    (hf : fsl_select_transform cf s = fsl_select_transform cfb sb) :
    bbreg_itk_bold_to_t1 concat lta2fsl_fwd c3affine t1_brain in_file t1rev cb r
      = bbreg_itk_bold_to_t1 concat lta2fsl_fwd c3affine t1_brain in_file t1rev cbb rb
    ∧ bbreg_itk_t1_to_bold concat lta2fsl_inv c3affine t1_brain in_file t1rev cb r
      = bbreg_itk_t1_to_bold concat lta2fsl_inv c3affine t1_brain in_file t1rev cbb rb
    ∧ fsl_itk_bold_to_t1 c3affine t1_brain in_file cf s
      = fsl_itk_bold_to_t1 c3affine t1_brain in_file cfb sb
    ∧ fsl_itk_t1_to_bold invert_xfm c3affine t1_brain in_file cf s
      = fsl_itk_t1_to_bold invert_xfm c3affine t1_brain in_file cfb sb
    ∧ bbreg_itk_t1_to_bold concat lta2fsl_inv c3affine t1_brain in_file t1rev cb r
      = (bbreg_select_transform cb r).map
          (fun sel => c3affine in_file t1_brain (lta2fsl_inv (concat sel t1rev)))
    ∧ fsl_itk_t1_to_bold invert_xfm c3affine t1_brain in_file cf s
      = (fsl_select_transform cf s).map
          (fun sel => c3affine in_file t1_brain (invert_xfm sel)) := by
  refine ⟨?_, ?_, ?_, ?_, ?_, ?_⟩ <;>
    simp [bbreg_itk_bold_to_t1, bbreg_itk_t1_to_bold, bbreg_lta_concat,
      fsl_itk_bold_to_t1, fsl_itk_t1_to_bold, fsl_invt_bbr, hb, hf,
      Option.map_map, Function.comp_def]

theorem outputs_from_selected_witness :
    fsl_itk_bold_to_t1 (fun _ _ x => x) 0 0 (⟨0, 1, 2, 3⟩ : FslCands ℕ ℕ) false
      = fsl_itk_bold_to_t1 (fun _ _ x => x) 0 0 (⟨0, 1, 2, 3⟩ : FslCands ℕ ℕ) false :=
  (outputs_from_selected (fun x _ => x) id id id (fun _ _ x => x) 0 0 0
    ⟨0, 1, 2, 3⟩ ⟨0, 1, 2, 3⟩ false false ⟨0, 1, 2, 3⟩ ⟨0, 1, 2, 3⟩ false false
    rfl rfl).2.2.1

end
